import Mathlib

/-!
# Shallow embedding of the VisionFi CLI client examples (node-sdk)

This file embeds the core logic of the TypeScript CLI in `node-sdk/src`:

* `commands/auth.ts` — `authenticateWithApi`
* `commands/analyze.ts` — `analyzeDocumentCore` and the recent-job-list update
  performed by the `analyzeDocument` wrapper
* `commands/results.ts` — `getResultsCore` (the result poller) and its
  recent-job-list update
* `interactive-core.ts` — `verifyAuthenticationCore`, `getWorkflowsCore`,
  `analyzeDocumentCore`, `getResultsCore`, `parseWorkflowCacheTtlCore`,
  `formatCacheTtlCore`
* the interactive session's `getCachedWorkflows` cache holder

Remote calls (`verifyAuth`, `getResults`, `analyzeDocument`, `getWorkflows`)
are modeled by environment records holding the response each call would
produce: `Except ErrObj α` models a promise that either resolves (`.ok`)
or rejects (`.error`).  JavaScript `null`/`undefined`/absent fields are
modeled by `Option` with `none`; a JS falsy-string check (`!s`) is modeled
by comparison with the empty string.  Each embedded command additionally
returns the list of remote calls it performed, in order, so that
"no network call happens" claims are statable.
-/

namespace VisionFi

/-- A JS `Error` object; the embedded code only ever reads `.message`. -/
structure ErrObj where
  message : String
deriving DecidableEq, Repr

/-- `CLIConfig` from `types/config.ts`.  An unset `service_account_path`
(JS `undefined` or empty string, both falsy) is modeled by `""`. -/
structure CLIConfig where
  service_account_path : String
  api_endpoint : String
  recent_uuids : List String
  debug_mode : Bool
  test_mode : Bool
  workflow_cache_ttl : Int
deriving DecidableEq, Repr

/-- A remote API call performed by a command, with the arguments that are
relevant to the claims.  `none` for a numeric argument models JS `NaN`. -/
inductive RemoteCall where
  | verifyAuth
  | getResults (pollIntervalMs maxAttempts : Option Int)
  | analyzeDocument
  | getWorkflows
deriving DecidableEq, Repr

/-! ## The recent-job list updates

Both the analyze and results paths update `config.recent_uuids`.  The
expression `[uuid, ...recent.filter(u => u !== uuid).slice(0, 9)]` appears
verbatim in `commands/analyze.ts` (`analyzeDocument` wrapper), in
`interactive-core.ts` (`analyzeDocumentCore`) and in `commands/results.ts`
(`getResultsCore`); the results path additionally guards it with
`if (!config.recent_uuids.includes(uuid))`. -/

/-- `[uuid, ...recent.filter(u => u !== uuid).slice(0, 9)]` — the update
used unconditionally by the analyze paths. -/
def analyzeRecentInsert (uuid : String) (recent : List String) : List String :=
  uuid :: (recent.filter (fun u => u != uuid)).take 9

/-- The update at `commands/results.ts`: the same expression, but only run
when `!config.recent_uuids.includes(uuid)`; an already-present id leaves
the list untouched. -/
def resultsRecentInsert (uuid : String) (recent : List String) : List String :=
  if uuid ∈ recent then recent
  else analyzeRecentInsert uuid recent

/-! ## JS string primitives used by the TTL parser

`parseWorkflowCacheTtlCore` uses `String.prototype.trim`, `toLowerCase`,
`endsWith` (with a single-character argument), `slice(0, -1)` and the
global `parseInt`.  They are modeled here on the character list underlying
the Lean string, which agrees with the JS semantics on the inputs the CLI
can see. -/

/-- JS whitespace test; on the characters relevant here it agrees with
`Char.isWhitespace`. -/
def isJsSpace (c : Char) : Bool :=
  c.isWhitespace

/-- `String.prototype.trim`. -/
def jsTrim (s : String) : String :=
  String.mk ((((s.data.dropWhile isJsSpace).reverse).dropWhile isJsSpace).reverse)

/-- `String.prototype.toLowerCase` (ASCII, which is all the CLI feeds it). -/
def jsToLower (s : String) : String :=
  String.mk (s.data.map Char.toLower)

/-- `s.endsWith(c)` for a single-character argument `c`. -/
def jsEndsWith1 (s : String) (c : Char) : Bool :=
  s.data.getLast? == some c

/-- `s.slice(0, -1)`: drop the last character. -/
def jsDropLast1 (s : String) : String :=
  String.mk s.data.dropLast

/-- Value of a decimal digit character. -/
def decVal? (c : Char) : Option Nat :=
  if '0' ≤ c ∧ c ≤ '9' then some (c.toNat - '0'.toNat) else none

/-- Value of a hexadecimal digit character. -/
def hexVal? (c : Char) : Option Nat :=
  if '0' ≤ c ∧ c ≤ '9' then some (c.toNat - '0'.toNat)
  else if 'a' ≤ c ∧ c ≤ 'f' then some (c.toNat - 'a'.toNat + 10)
  else if 'A' ≤ c ∧ c ≤ 'F' then some (c.toNat - 'A'.toNat + 10)
  else none

/-- The longest prefix of digit values accepted by `f`. -/
def leadingDigits (f : Char → Option Nat) : List Char → List Nat
  | [] => []
  | c :: cs =>
    match f c with
    | some d => d :: leadingDigits f cs
    | none => []

/-- Numeric value of a digit-value list in the given base. -/
def digitsVal (base : Nat) (ds : List Nat) : Nat :=
  ds.foldl (fun acc d => acc * base + d) 0

/-- The global `parseInt(s)` (`allowHex := true`, radix auto-detected from a
`0x`/`0X` prefix) and `parseInt(s, 10)` (`allowHex := false`): skip leading
whitespace, read an optional sign, then the longest digit prefix; an empty
digit prefix is `NaN`, modeled as `none`. -/
def jsParseIntAux (allowHex : Bool) (cs0 : List Char) : Option Int :=
  let cs1 := cs0.dropWhile isJsSpace
  let neg := cs1.head? == some '-'
  let hasSign := neg || (cs1.head? == some '+')
  let body := if hasSign then cs1.tail else cs1
  let sign : Int := if neg then -1 else 1
  let isHex := allowHex && (body.take 2 == ['0', 'x'] || body.take 2 == ['0', 'X'])
  let ds :=
    if isHex then leadingDigits hexVal? (body.drop 2)
    else leadingDigits decVal? body
  if ds.isEmpty then none
  else some (sign * Int.ofNat (digitsVal (if isHex then 16 else 10) ds))

/-- JS `parseInt(s)` with the radix argument omitted. -/
def jsParseInt (s : String) : Option Int :=
  jsParseIntAux true s.data

/-- JS `parseInt(s, 10)`. -/
def jsParseInt10 (s : String) : Option Int :=
  jsParseIntAux false s.data

/-! ## Cache TTL parser and formatter (`interactive-core.ts`) -/

/-- Outcome record of `parseWorkflowCacheTtlCore` / `formatCacheTtlCore`.
The `data` fields (`seconds`, `formattedString`) are flattened; absent
fields are `none`. -/
structure TtlOutcome where
  success : Bool
  message : String
  exitCode : Int
  seconds : Option Int := none
  formattedString : Option String := none
deriving DecidableEq, Repr

/-- `formatCacheTtlCore(seconds)`: display formatting.  `Math.floor` of a
quotient is floor division, `Int.fdiv`. -/
def formatCacheTtlCore (seconds : Int) : TtlOutcome :=
  let formattedString :=
    if seconds < 60 then
      toString seconds ++ " seconds"
    else if seconds < 3600 then
      let minutes := Int.fdiv seconds 60
      toString minutes ++ " minute" ++ (if minutes ≠ 1 then "s" else "")
    else
      let hours := Int.fdiv seconds 3600
      toString hours ++ " hour" ++ (if hours ≠ 1 then "s" else "")
  { success := true
    message := formattedString
    exitCode := 0
    seconds := some seconds
    formattedString := some formattedString }

/-- The suffix dispatch inside `parseWorkflowCacheTtlCore`, applied to the
already trimmed and lowercased input.  A JS `NaN` is `none`, and
`NaN * 60 = NaN` is `Option.map`. -/
def ttlSeconds? (normalizedInput : String) : Option Int :=
  if jsEndsWith1 normalizedInput 's' then
    jsParseInt (jsDropLast1 normalizedInput)
  else if jsEndsWith1 normalizedInput 'm' then
    (jsParseInt (jsDropLast1 normalizedInput)).map (· * 60)
  else if jsEndsWith1 normalizedInput 'h' then
    (jsParseInt (jsDropLast1 normalizedInput)).map (· * 3600)
  else
    jsParseInt normalizedInput

/-- The part of `parseWorkflowCacheTtlCore` after input normalization.
`isNaN(seconds) || seconds < 0` splits into the `none` case and the
negative case, both yielding the same failure record.

The surrounding `try`/`catch` in the source produces the record
`{ message: 'Invalid format. Examples: 30s, 10m, 2h', exitCode: 1 }` only
when an exception is thrown; for string inputs none of `trim`,
`toLowerCase`, `endsWith`, `slice` or `parseInt` can throw, so that branch
is unreachable and has no counterpart in this total embedding. -/
def parseNormalizedTtl (normalizedInput : String) : TtlOutcome :=
  match ttlSeconds? normalizedInput with
  | none =>
    { success := false
      message := "Invalid cache TTL. Must be a positive number."
      exitCode := 1 }
  | some seconds =>
    if seconds < 0 then
      { success := false
        message := "Invalid cache TTL. Must be a positive number."
        exitCode := 1 }
    else
      { success := true
        message := "Cache TTL parsed successfully"
        exitCode := 0
        seconds := some seconds
        formattedString := some (formatCacheTtlCore seconds).message }

/-- `parseWorkflowCacheTtlCore(input)`: `input.trim().toLowerCase()`
followed by the suffix dispatch and validation. -/
def parseWorkflowCacheTtlCore (input : String) : TtlOutcome :=
  parseNormalizedTtl (jsToLower (jsTrim input))

/-! ## `commands/auth.ts` — `authenticateWithApi` -/

/-- `AuthCommandResult`: `data` holds the remote `authResult.data` boolean. -/
structure AuthOutcome where
  success : Bool
  message : String
  exitCode : Int
  data : Option Bool := none
  error : Option ErrObj := none
deriving DecidableEq, Repr

/-- `authenticateWithApi(config, clientFactory)`.  The environment value is
the behavior of `client.verifyAuth()`: `.ok d` resolves to `{ data: d }`,
`.error e` rejects.  The source guard
`!config.service_account_path || config.service_account_path === undefined`
is the falsy-string test. -/
def authenticateWithApi (config : CLIConfig) (env : Except ErrObj Bool) : AuthOutcome :=
  if config.service_account_path = "" then
    { success := false
      message := "Client not initialized. Please configure a service account first."
      exitCode := 1 }
  else
    match env with
    | .ok d =>
      { success := d
        message := if d then "Authentication successful!" else "Authentication failed!"
        exitCode := if d then 0 else 1
        data := some d }
    | .error e =>
      { success := false
        message := "Authentication error: " ++ e.message
        exitCode := 1
        error := some e }

/-! ## `commands/analyze.ts` — `analyzeDocumentCore` -/

/-- The response of `client.analyzeDocument`: `{ uuid?: string, ... }`.
Only the `uuid` field is inspected by the embedded code. -/
structure AnalyzeResp where
  uuid : Option String := none
deriving DecidableEq, Repr

/-- JS truthiness of an optional string field (`undefined` and `""` are
falsy). -/
def optStrTruthy : Option String → Bool
  | none => false
  | some s => s != ""

/-- Options of the analyze command; only `workflow` is read by the core. -/
structure AnalyzeOpts where
  workflow : Option String := none
deriving DecidableEq, Repr

/-- Environment of one `analyzeDocumentCore` run: what the file system and
the two remote calls would answer. -/
structure AnalyzeEnv where
  fileExists : Bool
  verifyAuthData : Except ErrObj Bool
  analyzeResp : Except ErrObj AnalyzeResp
deriving Repr

/-- `AnalyzeCommandResult`. -/
structure AnalyzeOutcome where
  success : Bool
  message : String
  exitCode : Int
  uuid : Option String := none
  data : Option AnalyzeResp := none
  error : Option ErrObj := none
deriving DecidableEq, Repr

/-- An `analyzeDocumentCore` run together with the remote calls it made. -/
structure AnalyzeRun where
  result : AnalyzeOutcome
  calls : List RemoteCall
deriving DecidableEq, Repr

/-- `analyzeDocumentCore(filePath, options, config, dependencies)` from
`commands/analyze.ts`. -/
def analyzeDocumentCore (filePath : String) (options : AnalyzeOpts)
    (config : CLIConfig) (env : AnalyzeEnv) : AnalyzeRun :=
  if config.service_account_path = "" then
    { result :=
        { success := false
          message := "No service account configured. Run in interactive mode to set up a service account."
          exitCode := 1 }
      calls := [] }
  else if !env.fileExists then
    { result :=
        { success := false
          message := "File not found: " ++ filePath
          exitCode := 1 }
      calls := [] }
  else
    match env.verifyAuthData with
    | .error e =>
      { result :=
          { success := false
            message := "Authentication error: " ++ e.message
            exitCode := 1
            error := some e }
        calls := [.verifyAuth] }
    | .ok authData =>
      if !authData then
        { result :=
            { success := false
              message := "Authentication failed."
              exitCode := 1 }
          calls := [.verifyAuth] }
      else if !(optStrTruthy options.workflow) then
        { result :=
            { success := false
              message := "No workflow specified. Use --workflow option to specify analysis workflow."
              exitCode := 1 }
          calls := [.verifyAuth] }
      else
        match env.analyzeResp with
        | .error e =>
          { result :=
              { success := false
                message := "Error submitting document: " ++ e.message
                exitCode := 1
                error := some e }
            calls := [.verifyAuth, .analyzeDocument] }
        | .ok r =>
          if optStrTruthy r.uuid then
            { result :=
                { success := true
                  message := "Document submitted successfully!"
                  exitCode := 0
                  uuid := r.uuid
                  data := some r }
              calls := [.verifyAuth, .analyzeDocument] }
          else
            { result :=
                { success := false
                  message := "Document submitted but no UUID was returned."
                  exitCode := 1
                  data := some r }
              calls := [.verifyAuth, .analyzeDocument] }

/-! ## `commands/results.ts` — `getResultsCore` (the result poller) -/

/-- The response of `client.getResults`:
`{ status?, results?, error? }`, with `ρ` the (opaque) results payload. -/
structure JobResponse (ρ : Type) where
  status : Option String := none
  results : Option ρ := none
  error : Option ErrObj := none
deriving DecidableEq, Repr

/-- CLI options of the results command.  `pollInterval`/`maxAttempts` may
arrive as a string (to be `parseInt`ed) or as a number; `wait` may be
absent. -/
structure ResultsOptions where
  pollInterval : Option (String ⊕ Int) := none
  maxAttempts : Option (String ⊕ Int) := none
  wait : Option Bool := none

/-- `typeof v === 'string' ? parseInt(v, 10) : (v || dflt)`; `none` in the
result models `NaN`. -/
def resolvedOpt (v : Option (String ⊕ Int)) (dflt : Int) : Option Int :=
  match v with
  | some (.inl s) => jsParseInt10 s
  | some (.inr n) => some (if n = 0 then dflt else n)
  | none => some dflt

/-- `ResultsCommandResult` (flattened: `status`, `results`, `error` live
next to the uniform fields, as in the source record literals). -/
structure ResultsOutcome (ρ : Type) where
  success : Bool
  message : String
  exitCode : Int
  status : Option String := none
  results : Option ρ := none
  error : Option ErrObj := none
deriving DecidableEq, Repr

/-- Environment of one `getResultsCore` run. -/
structure ResultsEnv (ρ : Type) where
  verifyAuthData : Except ErrObj Bool
  getResultsResp : Except ErrObj (JobResponse ρ)
deriving Repr

/-- A `getResultsCore` run: the returned record, the remote calls made in
order, the final config (`recent_uuids` may have been updated) and whether
`configManager.saveConfig` ran. -/
structure ResultsRun (ρ : Type) where
  result : ResultsOutcome ρ
  calls : List RemoteCall
  config : CLIConfig
  saved : Bool
deriving Repr

/-- `getResultsCore(uuid, options, config, dependencies)` from
`commands/results.ts`: service-account check, `verifyAuth`, UUID check,
recent-list update, then one delegated `getResults` call whose response is
mapped to the outcome record. -/
def getResultsCore (uuid : String) (options : ResultsOptions)
    (config : CLIConfig) {ρ : Type} (env : ResultsEnv ρ) : ResultsRun ρ :=
  if config.service_account_path = "" then
    { result :=
        { success := false
          message := "No service account configured. Run in interactive mode to set up a service account."
          exitCode := 1 }
      calls := [], config := config, saved := false }
  else
    match env.verifyAuthData with
    | .error e =>
      { result :=
          { success := false
            message := "Authentication error: " ++ e.message
            exitCode := 1
            error := some e }
        calls := [.verifyAuth], config := config, saved := false }
    | .ok authData =>
      if !authData then
        { result :=
            { success := false
              message := "Authentication failed."
              exitCode := 1 }
          calls := [.verifyAuth], config := config, saved := false }
      else if uuid = "" then
        { result :=
            { success := false
              message := "No job UUID specified."
              exitCode := 1 }
          calls := [.verifyAuth], config := config, saved := false }
      else
        let config' := { config with
          recent_uuids := resultsRecentInsert uuid config.recent_uuids }
        let saved := decide (uuid ∉ config.recent_uuids)
        let pollInterval := resolvedOpt options.pollInterval 3000
        let maxAttempts := resolvedOpt options.maxAttempts 10
        let shouldWait := options.wait.getD false
        let callMade :=
          if shouldWait then RemoteCall.getResults pollInterval maxAttempts
          else RemoteCall.getResults (some 0) (some 1)
        match env.getResultsResp with
        | .error e =>
          { result :=
              { success := false
                message := "Failed to retrieve results: " ++ e.message
                exitCode := 1
                error := some e }
            calls := [.verifyAuth, callMade], config := config', saved := saved }
        | .ok r =>
          match r.results with
          | some res =>
            { result :=
                { success := true
                  message := "Results retrieved successfully!"
                  exitCode := 0
                  status := r.status
                  results := some res }
              calls := [.verifyAuth, callMade], config := config', saved := saved }
          | none =>
            match r.error with
            | some e =>
              { result :=
                  { success := false
                    message := "Analysis error occurred during processing."
                    exitCode := 1
                    status := r.status
                    error := some e }
                calls := [.verifyAuth, callMade], config := config', saved := saved }
            | none =>
              { result :=
                  { success := true
                    message := "No results available yet. The job may still be processing."
                    exitCode := 0
                    status := r.status }
                calls := [.verifyAuth, callMade], config := config', saved := saved }

/-! ## `interactive-core.ts` — the interactive-core variants -/

/-- `InteractiveCommandResult` with payload type `δ`. -/
structure InteractiveOutcome (δ : Type) where
  success : Bool
  message : String
  exitCode : Int
  data : Option δ := none
  error : Option ErrObj := none
deriving DecidableEq, Repr

/-- `verifyAuthenticationCore(client)`.  `client : Bool` records whether
the session holds an initialized client; the environment is the behavior
of `client.verifyAuth()`.  `data` holds the `authResult.data` boolean. -/
def verifyAuthenticationCore (client : Bool) (env : Except ErrObj Bool) :
    InteractiveOutcome Bool :=
  if !client then
    { success := false, message := "Client not initialized", exitCode := 1 }
  else
    match env with
    | .ok d =>
      if d then
        { success := true, message := "Authentication successful", exitCode := 0
          data := some d }
      else
        { success := false
          message := "Authentication check returned without error, but may not be fully authenticated"
          exitCode := 1
          data := some d }
    | .error e =>
      { success := false
        message := "Authentication test failed: " ++ e.message
        exitCode := 1
        error := some e }

/-- Payload of the interactive `analyzeDocumentCore`: on a submitted
document `data = { uuid, result, config }`, on a missing UUID
`data = result`. -/
inductive AnalyzeInterData where
  | submitted (uuid : String) (result : AnalyzeResp) (config : CLIConfig)
  | raw (result : AnalyzeResp)
deriving DecidableEq, Repr

/-- An interactive `analyzeDocumentCore` run: the result record, the
session config after the possible `recent_uuids` update, and whether
`configManager.saveConfig` ran. -/
structure AnalyzeInterRun where
  result : InteractiveOutcome AnalyzeInterData
  config : CLIConfig
  saved : Bool
deriving Repr

/-- The interactive `analyzeDocumentCore(client, fileData, fileName,
workflowKey, config)`.  The file payload and workflow key only flow into
the remote call, so they live in the environment response; `if
(result.uuid)` is the truthy test on an optional string. -/
def analyzeDocumentCoreInteractive (client : Bool) (config : CLIConfig)
    (env : Except ErrObj AnalyzeResp) : AnalyzeInterRun :=
  if !client then
    { result := { success := false, message := "Client not initialized", exitCode := 1 }
      config := config, saved := false }
  else
    match env with
    | .ok result =>
      match result.uuid with
      | some u =>
        if u = "" then
          { result :=
              { success := false
                message := "Document submitted but no UUID was returned"
                exitCode := 1
                data := some (.raw result) }
            config := config, saved := false }
        else
          let updatedConfig := { config with
            recent_uuids := analyzeRecentInsert u config.recent_uuids }
          { result :=
              { success := true
                message := "Document submitted successfully"
                exitCode := 0
                data := some (.submitted u result updatedConfig) }
            config := updatedConfig, saved := true }
      | none =>
        { result :=
            { success := false
              message := "Document submitted but no UUID was returned"
              exitCode := 1
              data := some (.raw result) }
          config := config, saved := false }
    | .error e =>
      { result :=
          { success := false
            message := "Error submitting document: " ++ e.message
            exitCode := 1
            error := some e }
        config := config, saved := false }

/-- The interactive `getResultsCore(client, uuid)`.  Note the source
returns `success: false` with `exitCode: 0` in the "no results yet"
branch. -/
def getResultsCoreInteractive (client : Bool) {ρ : Type}
    (env : Except ErrObj (JobResponse ρ)) : InteractiveOutcome (JobResponse ρ) :=
  if !client then
    { success := false, message := "Client not initialized", exitCode := 1 }
  else
    match env with
    | .ok result =>
      match result.results with
      | some _ =>
        { success := true
          message := "Results retrieved successfully"
          exitCode := 0
          data := some result }
      | none =>
        match result.error with
        | some e =>
          { success := false
            message := "Analysis error"
            exitCode := 1
            data := some result
            error := some e }
        | none =>
          { success := false
            message := "No results available yet. The job may still be processing."
            exitCode := 0
            data := some result }
    | .error e =>
      { success := false
        message := "Failed to retrieve results: " ++ e.message
        exitCode := 1
        error := some e }

/-! ## `interactive-core.ts` — `getWorkflowsCore` (the workflow cache) -/

/-- The response of `client.getWorkflows()`:
`{ success: bool, data?: [...] }`, with `ω` the element type of the
workflow list. -/
structure WfResp (ω : Type) where
  success : Bool
  data : Option (List ω) := none
deriving DecidableEq, Repr

/-- The `data` payload built by `getWorkflowsCore`.  A fresh fetch stores
`{ workflows, cachedAt }`, the cache hit `{ workflows, cachedAt,
fromCache: true }`, and the unsuccessful-fetch branch stores the raw
response itself (`data: workflows`).  The `workflows` argument is the raw
remote response (possibly `null`). -/
inductive WfData (ω : Type) where
  | fresh (workflows : Option (WfResp ω)) (cachedAt : Int)
  | cached (workflows : Option (WfResp ω)) (cachedAt : Int)
  | failed (resp : Option (WfResp ω))
deriving DecidableEq, Repr

/-- `data?.workflows` — present on the fresh and cached shapes only. -/
def WfData.workflowsField {ω : Type} : WfData ω → Option (WfResp ω)
  | .fresh w _ => w
  | .cached w _ => w
  | .failed _ => none

/-- `data?.cachedAt`. -/
def WfData.cachedAtField {ω : Type} : WfData ω → Option Int
  | .fresh _ t => some t
  | .cached _ t => some t
  | .failed _ => none

/-- `data?.fromCache` truthiness. -/
def WfData.fromCacheField {ω : Type} : WfData ω → Bool
  | .cached _ _ => true
  | _ => false

/-- The record returned by one `getWorkflowsCore` call, plus `calledApi`
recording whether the remote `getWorkflows()` call was made. -/
structure GetWfRun (ω : Type) where
  success : Bool
  message : String
  exitCode : Int
  data : Option (WfData ω) := none
  error : Option ErrObj := none
  calledApi : Bool
deriving DecidableEq, Repr

/-- `getWorkflowsCore(client, forceRefresh, cachedWorkflows,
workflowsCachedAt, workflowCacheTtl, debugMode)`.  `now` stands for the
`Date.now()` read at the top of the function; the environment is the
behavior of `client.getWorkflows()`, whose resolution value may be `null`
(the source guards with `workflows?.success`).  `debugMode` is accepted
and unused, as in the source. -/
def getWorkflowsCore {ω : Type} (client : Bool) (forceRefresh : Bool)
    (cachedWorkflows : Option (WfResp ω)) (workflowsCachedAt : Int)
    (workflowCacheTtl : Int) (debugMode : Bool) (now : Int)
    (env : Except ErrObj (Option (WfResp ω))) : GetWfRun ω :=
  if !client then
    { success := false, message := "Client not initialized", exitCode := 1
      calledApi := false }
  else
    let shouldFetchFromApi := forceRefresh || cachedWorkflows.isNone ||
      decide (now - workflowsCachedAt > workflowCacheTtl * 1000)
    if shouldFetchFromApi then
      match env with
      | .ok workflows =>
        if (workflows.map WfResp.success).getD false then
          { success := true
            message := "Workflows fetched successfully"
            exitCode := 0
            data := some (.fresh workflows now)
            calledApi := true }
        else
          { success := false
            message := "Failed to fetch workflows"
            exitCode := 1
            data := some (.failed workflows)
            calledApi := true }
      | .error e =>
        { success := false
          message := "Error fetching workflows: " ++ e.message
          exitCode := 1
          error := some e
          calledApi := true }
    else
      { success := true
        message := "Using cached workflows"
        exitCode := 0
        data := some (.cached cachedWorkflows workflowsCachedAt)
        calledApi := false }

/-! ## The interactive session cache holder (`getCachedWorkflows`) -/

/-- The mutable session fields read and written by `getCachedWorkflows`:
`this._cachedWorkflows`, `this._workflowsCachedAt`,
`this._workflowCacheTtl`. -/
structure WorkflowSession (ω : Type) where
  cachedWorkflows : Option (WfResp ω)
  workflowsCachedAt : Int
  workflowCacheTtl : Int
deriving DecidableEq, Repr

/-- `getCachedWorkflows(forceRefresh)` on a session: delegates to
`getWorkflowsCore`, then — only when the result is successful and not
`fromCache` — replaces `_cachedWorkflows`/`_workflowsCachedAt` with
`result.data?.workflows` / `result.data?.cachedAt`, and finally returns
`this._cachedWorkflows`.  In the updating branch `data` is always a
`fresh` payload, so both fields are present; the `getD` fallbacks are
never exercised. -/
def getCachedWorkflows {ω : Type} (s : WorkflowSession ω) (client : Bool)
    (forceRefresh : Bool) (debugMode : Bool) (now : Int)
    (env : Except ErrObj (Option (WfResp ω))) :
    WorkflowSession ω × Option (WfResp ω) :=
  let result := getWorkflowsCore client forceRefresh s.cachedWorkflows
    s.workflowsCachedAt s.workflowCacheTtl debugMode now env
  let fromCache := (result.data.map WfData.fromCacheField).getD false
  if result.success && !fromCache then
    let s' := { s with
      cachedWorkflows := (result.data.map WfData.workflowsField).getD none
      workflowsCachedAt := (result.data.bind WfData.cachedAtField).getD s.workflowsCachedAt }
    (s', s'.cachedWorkflows)
  else
    (s, s.cachedWorkflows)

/-! ## Concrete fixtures used by witnesses and counterexamples -/

/-- A sample rejection value. -/
def errBoom : ErrObj :=
  { message := "boom" }

/-- A config with no service account set. -/
def cfgNoAccount : CLIConfig :=
  { service_account_path := ""
    api_endpoint := "https://api.example.test"
    recent_uuids := []
    debug_mode := false
    test_mode := false
    workflow_cache_ttl := 1200 }

/-- A configured sample config whose recent list is `["a", "b"]`. -/
def cfgAB : CLIConfig :=
  { cfgNoAccount with
    service_account_path := "/home/user/.visionfi/keys/key.json"
    recent_uuids := ["a", "b"] }

/-- Environment: auth succeeds, `getResults` resolves with neither
`results` nor `error`. -/
def envPending : ResultsEnv Unit :=
  { verifyAuthData := .ok true
    getResultsResp := .ok { status := some "processing" } }

/-- Environment: auth succeeds, `getResults` resolves with results. -/
def envDone : ResultsEnv Unit :=
  { verifyAuthData := .ok true
    getResultsResp := .ok { status := some "processed", results := some () } }

/-- Environment: auth succeeds, `getResults` resolves with a terminal
error. -/
def envFailedJob : ResultsEnv Unit :=
  { verifyAuthData := .ok true
    getResultsResp := .ok { status := some "failed", error := some errBoom } }

/-- A successful workflows response. -/
def wfOk : WfResp Unit :=
  { success := true, data := some [] }

/-- `getWorkflows` resolving successfully. -/
def envWfOk : Except ErrObj (Option (WfResp Unit)) :=
  .ok (some wfOk)

/-- `getWorkflows` resolving to `null`. -/
def envWfNull : Except ErrObj (Option (WfResp Unit)) :=
  .ok none

/-- A session holding a cached workflows value. -/
def sessionWithCache : WorkflowSession Unit :=
  { cachedWorkflows := some wfOk
    workflowsCachedAt := 900000
    workflowCacheTtl := 300 }

/-! ## General lemmas about the JS primitives -/

theorem isDigit_not_space {c : Char} (h : c.isDigit = true) : isJsSpace c = false := by
  simp [Char.isDigit] at h
  by_contra hc
  simp only [Bool.not_eq_false] at hc
  simp [isJsSpace, Char.isWhitespace] at hc
  rcases hc with ((hc | hc) | hc) | hc <;> (subst hc; revert h; decide)

theorem isDigit_ne {c d : Char} (h : c.isDigit = true) (hd : d.isDigit = false) :
    c ≠ d := by
  intro he
  subst he
  rw [h] at hd
  cases hd

theorem isDigit_decVal {c : Char} (h : c.isDigit = true) :
    decVal? c = some (c.toNat - 48) := by
  have hb := h
  simp [Char.isDigit] at hb
  unfold decVal?
  rw [if_pos (show '0' ≤ c ∧ c ≤ '9' from ⟨hb.1, hb.2⟩)]
  rfl

/-- `parseInt` on a nonempty all-digit string succeeds with the decimal
value of the digits. -/
theorem jsParseInt_digits {ds : List Char} (hne : ds ≠ [])
    (h : ds.all Char.isDigit = true) :
    jsParseInt (String.mk ds) = some (Int.ofNat (digitsVal 10 (leadingDigits decVal? ds))) := by
  obtain ⟨d, rest, rfl⟩ : ∃ d rest, ds = d :: rest := by
    cases ds with
    | nil => exact absurd rfl hne
    | cons d rest => exact ⟨d, rest, rfl⟩
  have hall := h
  simp only [List.all_cons, Bool.and_eq_true] at hall
  have hd := hall.1
  have hm : (some d == some '-') = false := by
    simp
    exact isDigit_ne hd (by decide)
  have hp : (some d == some '+') = false := by
    simp
    exact isDigit_ne hd (by decide)
  have hx : (List.take 2 (d :: rest) == ['0', 'x']) = false := by
    cases rest with
    | nil => simp
    | cons e es =>
      have he : e.isDigit = true := by
        simp only [List.all_cons, Bool.and_eq_true] at hall
        exact hall.2.1
      simp
      intro _
      exact isDigit_ne he (by decide)
  have hX : (List.take 2 (d :: rest) == ['0', 'X']) = false := by
    cases rest with
    | nil => simp
    | cons e es =>
      have he : e.isDigit = true := by
        simp only [List.all_cons, Bool.and_eq_true] at hall
        exact hall.2.1
      simp
      intro _
      exact isDigit_ne he (by decide)
  have hld : leadingDigits decVal? (d :: rest) =
      (d.toNat - 48) :: leadingDigits decVal? rest := by
    rw [leadingDigits, isDigit_decVal hd]
  unfold jsParseInt jsParseIntAux
  simp only [List.dropWhile_cons, isDigit_not_space hd, Bool.false_eq_true, if_false,
    List.head?_cons, hm, hp, hx, hX, Bool.or_false, Bool.and_false, Bool.true_and,
    Bool.false_or, hld, List.isEmpty_cons]
  simp [hld]

/-- The suffix dispatch on an all-digit body with an explicit unit
character: `s` keeps the parsed value, `m` multiplies by 60, `h` by 3600,
and a bare digit string is parsed directly. -/
theorem ttlSeconds_digit_suffixes {ds : List Char} (hne : ds ≠ [])
    (h : ds.all Char.isDigit = true) :
    ttlSeconds? (String.mk (ds ++ ['s'])) = jsParseInt (String.mk ds) ∧
    ttlSeconds? (String.mk (ds ++ ['m'])) = (jsParseInt (String.mk ds)).map (· * 60) ∧
    ttlSeconds? (String.mk (ds ++ ['h'])) = (jsParseInt (String.mk ds)).map (· * 3600) ∧
    ttlSeconds? (String.mk ds) = jsParseInt (String.mk ds) := by
  obtain ⟨d, hd, hdm⟩ : ∃ d, ds.getLast? = some d ∧ d.isDigit = true := by
    refine ⟨ds.getLast hne, List.getLast?_eq_getLast ds hne, ?_⟩
    rw [List.all_eq_true] at h
    exact h _ (List.getLast_mem hne)
  refine ⟨?_, ?_, ?_, ?_⟩
  · unfold ttlSeconds? jsEndsWith1 jsDropLast1
    simp [List.getLast?_concat, List.dropLast_concat]
  · unfold ttlSeconds? jsEndsWith1 jsDropLast1
    simp [List.getLast?_concat, List.dropLast_concat]
  · unfold ttlSeconds? jsEndsWith1 jsDropLast1
    simp [List.getLast?_concat, List.dropLast_concat]
  · unfold ttlSeconds? jsEndsWith1
    have hs : d ≠ 's' := isDigit_ne hdm (by decide)
    have hm : d ≠ 'm' := isDigit_ne hdm (by decide)
    have hh : d ≠ 'h' := isDigit_ne hdm (by decide)
    simp [hd, hs, hm, hh]

/-! ## Claims about the TTL parser (C7, C10) -/

/-- C7 counterexample: on the input `"x90"` — the claim's own example of a
malformed input with a non-numeric prefix — `parseWorkflowCacheTtlCore`
returns the message "Invalid cache TTL. Must be a positive number.", not
the claimed "Invalid format. Examples: 30s, 10m, 2h": `parseInt("x90")` is
`NaN` rather than a thrown exception, so the `catch` branch is not
taken. -/
theorem parseTtl_x90_not_invalid_format :
    (parseWorkflowCacheTtlCore "x90").success = false ∧
    (parseWorkflowCacheTtlCore "x90").exitCode = 1 ∧
    (parseWorkflowCacheTtlCore "x90").message =
      "Invalid cache TTL. Must be a positive number." ∧
    (parseWorkflowCacheTtlCore "x90").message ≠
      "Invalid format. Examples: 30s, 10m, 2h" := by
  refine ⟨by decide, by decide, by decide, by decide⟩

/-- C7 (amended): `parseWorkflowCacheTtlCore` trims and lowercases its
input and interprets suffix `s` as seconds, `m` as minutes × 60, `h` as
hours × 3600, and no suffix as seconds; an input whose parsed numeric
value is `NaN` or negative — including malformed inputs with a non-numeric
prefix such as `"x90"` — yields failure with message "Invalid cache TTL.
Must be a positive number.".  The message "Invalid format. Examples: 30s,
10m, 2h" is produced only by the `catch` branch, which no string input can
reach, so no input ever yields it. -/
theorem parseTtl_suffix_and_failure_semantics :
    (∀ input : String,
        parseWorkflowCacheTtlCore input = parseNormalizedTtl (jsToLower (jsTrim input))) ∧
    (∀ ds : List Char, ds ≠ [] → ds.all Char.isDigit = true →
        ∃ n : Int, 0 ≤ n ∧
          jsParseInt (String.mk ds) = some n ∧
          ttlSeconds? (String.mk (ds ++ ['s'])) = some n ∧
          ttlSeconds? (String.mk (ds ++ ['m'])) = some (n * 60) ∧
          ttlSeconds? (String.mk (ds ++ ['h'])) = some (n * 3600) ∧
          ttlSeconds? (String.mk ds) = some n) ∧
    (∀ input : String,
        ttlSeconds? (jsToLower (jsTrim input)) = none →
          (parseWorkflowCacheTtlCore input).success = false ∧
          (parseWorkflowCacheTtlCore input).exitCode = 1 ∧
          (parseWorkflowCacheTtlCore input).message =
            "Invalid cache TTL. Must be a positive number.") ∧
    (∀ (input : String) (n : Int),
        ttlSeconds? (jsToLower (jsTrim input)) = some n → n < 0 →
          (parseWorkflowCacheTtlCore input).success = false ∧
          (parseWorkflowCacheTtlCore input).exitCode = 1 ∧
          (parseWorkflowCacheTtlCore input).message =
            "Invalid cache TTL. Must be a positive number.") ∧
    (∀ input : String,
        (parseWorkflowCacheTtlCore input).message ≠
          "Invalid format. Examples: 30s, 10m, 2h") := by
  refine ⟨fun input => rfl, ?_, ?_, ?_, ?_⟩
  · intro ds hne hdig
    obtain ⟨hs, hm, hh, hplain⟩ := ttlSeconds_digit_suffixes hne hdig
    refine ⟨Int.ofNat (digitsVal 10 (leadingDigits decVal? ds)), ?_, ?_, ?_, ?_, ?_, ?_⟩
    · exact Int.ofNat_nonneg _
    · exact jsParseInt_digits hne hdig
    · rw [hs, jsParseInt_digits hne hdig]
    · rw [hm, jsParseInt_digits hne hdig]
      rfl
    · rw [hh, jsParseInt_digits hne hdig]
      rfl
    · rw [hplain, jsParseInt_digits hne hdig]
  · intro input hnone
    unfold parseWorkflowCacheTtlCore parseNormalizedTtl
    rw [hnone]
    exact ⟨rfl, rfl, rfl⟩
  · intro input n hsome hneg
    unfold parseWorkflowCacheTtlCore parseNormalizedTtl
    rw [hsome]
    refine ⟨?_, ?_, ?_⟩ <;> simp [hneg]
  · intro input
    unfold parseWorkflowCacheTtlCore parseNormalizedTtl
    cases hts : ttlSeconds? (jsToLower (jsTrim input)) with
    | none => decide
    | some n =>
      by_cases hneg : n < 0
      · simp only [if_pos hneg]
        decide
      · simp only [if_neg hneg]
        decide

/-- C7 witness: the amended theorem applied at the digit string `"90"`
and at an input that parses to `NaN`. -/
theorem parseTtl_suffix_and_failure_semantics_witness :
    ttlSeconds? (String.mk (['9', '0'] ++ ['m'])) = some 5400 ∧
    (parseWorkflowCacheTtlCore "abc").message =
      "Invalid cache TTL. Must be a positive number." := by
  constructor
  · obtain ⟨n, _, hparse, _, hm, _, _⟩ :=
      parseTtl_suffix_and_failure_semantics.2.1 ['9', '0'] (by decide) (by decide)
    have hn : n = 90 := by
      have h90 : jsParseInt (String.mk ['9', '0']) = some 90 := by decide
      rw [h90] at hparse
      exact (Option.some.injEq _ _ ▸ hparse.symm)
    rw [hm, hn]
    norm_num
  · exact (parseTtl_suffix_and_failure_semantics.2.2.1 "abc" (by decide)).2.2

/-- C10: inputs whose digits are followed by arbitrary trailing characters
are accepted: `"90x"` parses successfully as 90 seconds (the trailing
`x` is not an `s`/`m`/`h` suffix and `parseInt` ignores trailing
garbage), and `"10ms"` is treated as `'s'`-suffixed, parsing as 10
seconds. -/
theorem parseTtl_trailing_garbage_accepted :
    (parseWorkflowCacheTtlCore "90x").success = true ∧
    (parseWorkflowCacheTtlCore "90x").exitCode = 0 ∧
    (parseWorkflowCacheTtlCore "90x").seconds = some 90 ∧
    (parseWorkflowCacheTtlCore "10ms").success = true ∧
    (parseWorkflowCacheTtlCore "10ms").exitCode = 0 ∧
    (parseWorkflowCacheTtlCore "10ms").seconds = some 10 := by
  refine ⟨by decide, by decide, by decide, by decide, by decide, by decide⟩

/-! ## Claims about the result poller (C1, C5, C8) -/

/-- C1: once `getResultsCore` reaches the remote `getResults` call (service
account configured, auth verified, non-empty UUID) and the call resolves
with response `r`, the outcome is mapped as: `results` populated ⇒
success / exit 0 / "Results retrieved successfully!"; `error` populated
and `results` absent ⇒ failure / exit 1 / "Analysis error occurred during
processing."; neither populated ⇒ success / exit 0 / "No results
available yet. The job may still be processing.". -/
theorem getResults_poll_outcome_mapping {ρ : Type} (uuid : String)
    (options : ResultsOptions) (config : CLIConfig) (env : ResultsEnv ρ)
    (r : JobResponse ρ)
    (hsa : config.service_account_path ≠ "")
    (hauth : env.verifyAuthData = .ok true)
    (huuid : uuid ≠ "")
    (hresp : env.getResultsResp = .ok r) :
    ((∃ res, r.results = some res) →
      (getResultsCore uuid options config env).result.success = true ∧
      (getResultsCore uuid options config env).result.exitCode = 0 ∧
      (getResultsCore uuid options config env).result.message =
        "Results retrieved successfully!") ∧
    (r.results = none → (∃ e, r.error = some e) →
      (getResultsCore uuid options config env).result.success = false ∧
      (getResultsCore uuid options config env).result.exitCode = 1 ∧
      (getResultsCore uuid options config env).result.message =
        "Analysis error occurred during processing.") ∧
    (r.results = none → r.error = none →
      (getResultsCore uuid options config env).result.success = true ∧
      (getResultsCore uuid options config env).result.exitCode = 0 ∧
      (getResultsCore uuid options config env).result.message =
        "No results available yet. The job may still be processing.") := by
  refine ⟨?_, ?_, ?_⟩
  · rintro ⟨res, hres⟩
    simp [getResultsCore, hsa, hauth, huuid, hresp, hres]
  · rintro hres ⟨e, herr⟩
    simp [getResultsCore, hsa, hauth, huuid, hresp, hres, herr]
  · intro hres herr
    simp [getResultsCore, hsa, hauth, huuid, hresp, hres, herr]

/-- C1 witness: the mapping theorem applied to three concrete responses. -/
theorem getResults_poll_outcome_mapping_witness :
    (getResultsCore "job-1" {} cfgAB envDone).result.message =
      "Results retrieved successfully!" ∧
    (getResultsCore "job-1" {} cfgAB envFailedJob).result.exitCode = 1 ∧
    (getResultsCore "job-1" {} cfgAB envPending).result.message =
      "No results available yet. The job may still be processing." := by
  refine ⟨?_, ?_, ?_⟩
  · exact ((getResults_poll_outcome_mapping "job-1" {} cfgAB envDone
      { status := some "processed", results := some () }
      (by decide) rfl (by decide) rfl).1 ⟨(), rfl⟩).2.2
  · exact ((getResults_poll_outcome_mapping "job-1" {} cfgAB envFailedJob
      { status := some "failed", error := some errBoom }
      (by decide) rfl (by decide) rfl).2.1 rfl ⟨errBoom, rfl⟩).2.1
  · exact ((getResults_poll_outcome_mapping "job-1" {} cfgAB envPending
      { status := some "processing" }
      (by decide) rfl (by decide) rfl).2.2 rfl rfl).2.2

/-- C5: with a configured service account and successful auth, an empty
job UUID makes `getResultsCore` fail with exit code 1 and "No job UUID
specified."; the only remote call of the run is the earlier `verifyAuth` —
no `getResults` call is made. -/
theorem getResults_empty_uuid {ρ : Type} (options : ResultsOptions)
    (config : CLIConfig) (env : ResultsEnv ρ)
    (hsa : config.service_account_path ≠ "")
    (hauth : env.verifyAuthData = .ok true) :
    (getResultsCore "" options config env).result.success = false ∧
    (getResultsCore "" options config env).result.exitCode = 1 ∧
    (getResultsCore "" options config env).result.message = "No job UUID specified." ∧
    (getResultsCore "" options config env).calls = [RemoteCall.verifyAuth] := by
  refine ⟨?_, ?_, ?_, ?_⟩ <;> simp [getResultsCore, hsa, hauth]

/-- C5 witness. -/
theorem getResults_empty_uuid_witness :
    (getResultsCore "" {} cfgAB (envPending)).result.message = "No job UUID specified." ∧
    (getResultsCore "" {} cfgAB (envPending)).calls = [RemoteCall.verifyAuth] := by
  have h := getResults_empty_uuid (ρ := Unit) {} cfgAB envPending (by decide) rfl
  exact ⟨h.2.2.1, h.2.2.2⟩

/-- C8 counterexample: a run of `getResultsCore` with an empty job id — one
of the claim's precondition failures — still performs the `verifyAuth`
network call, so the failure is not detected before any network call. -/
theorem getResults_empty_uuid_calls_verifyAuth :
    (getResultsCore "" {} cfgAB envPending).result.message = "No job UUID specified." ∧
    RemoteCall.verifyAuth ∈ (getResultsCore "" {} cfgAB envPending).calls := by
  refine ⟨by decide, by decide⟩

/-- C8 (amended): a missing service account or missing file is detected
before any network call; an empty job id or missing workflow is detected
only after `verifyAuth`, but before the data call — in all four cases the
run performs no `analyzeDocument`/`getResults` call. -/
theorem precondition_failures_before_data_call :
    (∀ (filePath : String) (options : AnalyzeOpts) (config : CLIConfig) (env : AnalyzeEnv),
        config.service_account_path = "" →
          (analyzeDocumentCore filePath options config env).calls = [] ∧
          (analyzeDocumentCore filePath options config env).result.success = false) ∧
    (∀ (filePath : String) (options : AnalyzeOpts) (config : CLIConfig) (env : AnalyzeEnv),
        env.fileExists = false →
          (analyzeDocumentCore filePath options config env).calls = [] ∧
          (analyzeDocumentCore filePath options config env).result.success = false) ∧
    (∀ (filePath : String) (options : AnalyzeOpts) (config : CLIConfig) (env : AnalyzeEnv),
        config.service_account_path ≠ "" → env.fileExists = true →
        env.verifyAuthData = .ok true → optStrTruthy options.workflow = false →
          (analyzeDocumentCore filePath options config env).calls = [RemoteCall.verifyAuth] ∧
          (analyzeDocumentCore filePath options config env).result.message =
            "No workflow specified. Use --workflow option to specify analysis workflow." ∧
          (analyzeDocumentCore filePath options config env).result.success = false) ∧
    (∀ (ρ : Type) (uuid : String) (options : ResultsOptions) (config : CLIConfig)
        (env : ResultsEnv ρ),
        config.service_account_path = "" →
          (getResultsCore uuid options config env).calls = [] ∧
          (getResultsCore uuid options config env).result.success = false) ∧
    (∀ (ρ : Type) (options : ResultsOptions) (config : CLIConfig) (env : ResultsEnv ρ),
        config.service_account_path ≠ "" → env.verifyAuthData = .ok true →
          (getResultsCore "" options config env).calls = [RemoteCall.verifyAuth] ∧
          (getResultsCore "" options config env).result.message = "No job UUID specified.") := by
  refine ⟨?_, ?_, ?_, ?_, ?_⟩
  · intro filePath options config env hsa
    refine ⟨?_, ?_⟩ <;> simp [analyzeDocumentCore, hsa]
  · intro filePath options config env hfile
    by_cases hsa : config.service_account_path = ""
    · refine ⟨?_, ?_⟩ <;> simp [analyzeDocumentCore, hsa]
    · refine ⟨?_, ?_⟩ <;> simp [analyzeDocumentCore, hsa, hfile]
  · intro filePath options config env hsa hfile hauth hwf
    refine ⟨?_, ?_, ?_⟩ <;> simp [analyzeDocumentCore, hsa, hfile, hauth, hwf]
  · intro ρ uuid options config env hsa
    refine ⟨?_, ?_⟩ <;> simp [getResultsCore, hsa]
  · intro ρ options config env hsa hauth
    refine ⟨?_, ?_⟩ <;> simp [getResultsCore, hsa, hauth]

/-- C8 witness: the amended theorem applied at concrete runs. -/
theorem precondition_failures_before_data_call_witness :
    (analyzeDocumentCore "/docs/invoice.pdf" {} cfgNoAccount
      { fileExists := true, verifyAuthData := .ok true,
        analyzeResp := .ok { uuid := some "u-1" } }).calls = [] ∧
    (getResultsCore "" {} cfgAB envPending).calls = [RemoteCall.verifyAuth] := by
  constructor
  · exact (precondition_failures_before_data_call.1 "/docs/invoice.pdf" {} cfgNoAccount
      { fileExists := true, verifyAuthData := .ok true,
        analyzeResp := .ok { uuid := some "u-1" } } rfl).1
  · exact (precondition_failures_before_data_call.2.2.2.2 Unit {} cfgAB envPending
      (by decide) rfl).1

/-! ## Claims about the workflow cache (C2, C9, C6) -/

/-- C2: with an initialized client, `getWorkflowsCore` performs the remote
fetch iff force-refresh is set, no cached entry exists, or
`now - cachedAt > ttlSeconds * 1000`; otherwise it returns the stored
cached entry (with its stored timestamp and `fromCache`) without any
remote call. -/
theorem getWorkflows_cache_decision {ω : Type} (forceRefresh : Bool)
    (cachedWorkflows : Option (WfResp ω)) (workflowsCachedAt workflowCacheTtl now : Int)
    (debugMode : Bool) (env : Except ErrObj (Option (WfResp ω))) :
    ((getWorkflowsCore true forceRefresh cachedWorkflows workflowsCachedAt
        workflowCacheTtl debugMode now env).calledApi = true ↔
      (forceRefresh = true ∨ cachedWorkflows = none ∨
        now - workflowsCachedAt > workflowCacheTtl * 1000)) ∧
    (forceRefresh = false → cachedWorkflows ≠ none →
      ¬(now - workflowsCachedAt > workflowCacheTtl * 1000) →
      (getWorkflowsCore true forceRefresh cachedWorkflows workflowsCachedAt
        workflowCacheTtl debugMode now env).calledApi = false ∧
      (getWorkflowsCore true forceRefresh cachedWorkflows workflowsCachedAt
        workflowCacheTtl debugMode now env).success = true ∧
      (getWorkflowsCore true forceRefresh cachedWorkflows workflowsCachedAt
        workflowCacheTtl debugMode now env).exitCode = 0 ∧
      (getWorkflowsCore true forceRefresh cachedWorkflows workflowsCachedAt
        workflowCacheTtl debugMode now env).data =
        some (.cached cachedWorkflows workflowsCachedAt)) := by
  have hAPI : (getWorkflowsCore true forceRefresh cachedWorkflows workflowsCachedAt
      workflowCacheTtl debugMode now env).calledApi =
      (forceRefresh || cachedWorkflows.isNone ||
        decide (now - workflowsCachedAt > workflowCacheTtl * 1000)) := by
    unfold getWorkflowsCore
    cases hb : (forceRefresh || cachedWorkflows.isNone ||
        decide (now - workflowsCachedAt > workflowCacheTtl * 1000)) with
    | false => simp [hb]
    | true =>
      cases env with
      | ok w => simp [hb, apply_ite]
      | error e => simp [hb]
  constructor
  · rw [hAPI]
    simp [Option.isNone_iff_eq_none, or_assoc]
  · intro h1 h2 h3
    have h2' : cachedWorkflows.isNone = false := by
      rcases cachedWorkflows with _ | w
      · exact absurd rfl h2
      · rfl
    have hb : (forceRefresh || cachedWorkflows.isNone ||
        decide (now - workflowsCachedAt > workflowCacheTtl * 1000)) = false := by
      simp [h1, h2', h3]
    refine ⟨?_, ?_, ?_, ?_⟩ <;>
      (unfold getWorkflowsCore; simp [hb])

/-- C2 witness: with `ttlSeconds = 300` and `forceRefresh = false`, a
cached entry aged 100 000 ms is served from cache without a remote call,
and one aged 400 000 ms triggers the remote fetch. -/
theorem getWorkflows_cache_decision_witness :
    (getWorkflowsCore true false (some wfOk) 900000 300 false 1000000 envWfOk).calledApi
      = false ∧
    (getWorkflowsCore true false (some wfOk) 600000 300 false 1000000 envWfOk).calledApi
      = true := by
  constructor
  · exact ((getWorkflows_cache_decision false (some wfOk) 900000 300 1000000 false
      envWfOk).2 rfl (by decide) (by decide)).1
  · exact (getWorkflows_cache_decision false (some wfOk) 600000 300 1000000 false
      envWfOk).1.mpr (Or.inr (Or.inr (by decide)))

/-- C9 counterexample: with `ttlSeconds = 0`, `forceRefresh = false` and a
cached entry present, an access in the same millisecond as the caching
(`now = cachedAt`, so `now - cachedAt = 0` is not `> 0`) is served from
cache — no remote fetch happens, refuting "regardless of how recently the
entry was cached". -/
theorem ttl_zero_same_millisecond_uses_cache :
    (getWorkflowsCore true false (some wfOk) 5 0 false 5 envWfOk).calledApi = false ∧
    (getWorkflowsCore true false (some wfOk) 5 0 false 5 envWfOk).data =
      some (.cached (some wfOk) 5) := by
  refine ⟨by decide, by decide⟩

/-- C9 (amended): with `ttlSeconds = 0`, `forceRefresh = false` and a
cached entry present, the access performs a remote fetch iff at least one
millisecond has elapsed since caching (`now - cachedAt > 0`); an entry
cached in the same millisecond (or timestamped in the future) is still
served from cache. -/
theorem ttl_zero_refetch_iff_elapsed {ω : Type} (cached : WfResp ω)
    (cachedAt now : Int) (debugMode : Bool)
    (env : Except ErrObj (Option (WfResp ω))) :
    (getWorkflowsCore true false (some cached) cachedAt 0 debugMode now env).calledApi =
      decide (now - cachedAt > 0) := by
  unfold getWorkflowsCore
  cases hd : decide (now - cachedAt > 0) with
  | false =>
    have hprop : ¬(now - cachedAt > 0) := of_decide_eq_false hd
    have hlt : ¬(cachedAt < now) := by omega
    simp [hd, hprop, hlt]
  | true =>
    have hprop : now - cachedAt > 0 := of_decide_eq_true hd
    have hlt : cachedAt < now := by omega
    cases env with
    | ok w => simp [hd, hprop, hlt, apply_ite]
    | error e => simp [hd, hprop, hlt]

/-- C6: when the remote fetch fails — `getWorkflows` rejects, resolves to
`null`, or resolves with a non-success indicator — `getCachedWorkflows`
leaves the session's cached workflows and cache timestamp unchanged and
still returns the previously cached value; whenever the fetch was actually
attempted, the inner result reports failure. -/
def wfFetchFailed {ω : Type} (env : Except ErrObj (Option (WfResp ω))) : Bool :=
  match env with
  | .error _ => true
  | .ok none => true
  | .ok (some w) => !w.success

theorem getCachedWorkflows_stale_on_error {ω : Type} (s : WorkflowSession ω)
    (client forceRefresh debugMode : Bool) (now : Int)
    (env : Except ErrObj (Option (WfResp ω)))
    (hfail : wfFetchFailed env = true) :
    (getCachedWorkflows s client forceRefresh debugMode now env).1 = s ∧
    (getCachedWorkflows s client forceRefresh debugMode now env).2 = s.cachedWorkflows ∧
    ((getWorkflowsCore client forceRefresh s.cachedWorkflows s.workflowsCachedAt
        s.workflowCacheTtl debugMode now env).calledApi = true →
      (getWorkflowsCore client forceRefresh s.cachedWorkflows s.workflowsCachedAt
        s.workflowCacheTtl debugMode now env).success = false) := by
  cases client with
  | false =>
    refine ⟨?_, ?_, ?_⟩ <;> simp [getCachedWorkflows, getWorkflowsCore]
  | true =>
    cases hb : (forceRefresh || s.cachedWorkflows.isNone ||
        decide (now - s.workflowsCachedAt > s.workflowCacheTtl * 1000)) with
    | false =>
      refine ⟨?_, ?_, ?_⟩ <;>
        simp [getCachedWorkflows, getWorkflowsCore, hb, WfData.fromCacheField]
    | true =>
      cases env with
      | error e =>
        refine ⟨?_, ?_, ?_⟩ <;> simp [getCachedWorkflows, getWorkflowsCore, hb]
      | ok w =>
        cases w with
        | none =>
          refine ⟨?_, ?_, ?_⟩ <;> simp [getCachedWorkflows, getWorkflowsCore, hb]
        | some wf =>
          have hws : wf.success = false := by
            simp [wfFetchFailed] at hfail
            exact hfail
          refine ⟨?_, ?_, ?_⟩ <;>
            simp [getCachedWorkflows, getWorkflowsCore, hb, hws]

/-- C6 witness: a forced refresh whose fetch resolves to `null` leaves the
cached value in place and still hands it back. -/
theorem getCachedWorkflows_stale_on_error_witness :
    (getCachedWorkflows sessionWithCache true true false 1000000 envWfNull).1 =
      sessionWithCache ∧
    (getCachedWorkflows sessionWithCache true true false 1000000 envWfNull).2 =
      some wfOk := by
  have h := getCachedWorkflows_stale_on_error sessionWithCache true true false
    1000000 envWfNull (by decide)
  exact ⟨h.1, h.2.1⟩

/-! ## Claims about the recent-jobs list (C4) -/

/-- C4 counterexample: in the results path, inserting the id `"b"`, which
is already present in `["a", "b"]`, leaves the list unchanged (the update
is guarded by `includes`), so the id is *not* moved to the front — the
head stays `"a"`. -/
theorem results_insert_does_not_move_to_front :
    (getResultsCore "b" {} cfgAB envPending).config.recent_uuids = ["a", "b"] ∧
    (getResultsCore "b" {} cfgAB envPending).config.recent_uuids.head? ≠ some "b" ∧
    (getResultsCore "b" {} cfgAB envPending).saved = false := by
  refine ⟨by decide, by decide, by decide⟩

/-- C4 (amended): the analyze-path insertion places the id at the front,
keeps the list duplicate-free and caps it at 10, and inserting an 11th
distinct id evicts the oldest (last) entry; the results path performs the
same insertion for an id that is not yet present, but leaves the list
entirely unchanged — no move-to-front — when the id is already present. -/
theorem recent_list_discipline (uuid : String) (recent : List String)
    (hnd : recent.Nodup) :
    (analyzeRecentInsert uuid recent).head? = some uuid ∧
    (analyzeRecentInsert uuid recent).Nodup ∧
    (analyzeRecentInsert uuid recent).length ≤ 10 ∧
    (uuid ∈ recent → resultsRecentInsert uuid recent = recent) ∧
    (uuid ∉ recent → resultsRecentInsert uuid recent = analyzeRecentInsert uuid recent) ∧
    (uuid ∉ recent → recent.length = 10 →
      analyzeRecentInsert uuid recent = uuid :: recent.take 9) := by
  refine ⟨rfl, ?_, ?_, ?_, ?_, ?_⟩
  · unfold analyzeRecentInsert
    rw [List.nodup_cons]
    constructor
    · intro hmem
      have hmem' := (List.take_sublist 9 _).subset hmem
      have := List.of_mem_filter hmem'
      simp at this
    · exact ((hnd.filter _).sublist (List.take_sublist 9 _))
  · unfold analyzeRecentInsert
    simp [List.length_take]
  · intro h
    unfold resultsRecentInsert
    rw [if_pos h]
  · intro h
    unfold resultsRecentInsert
    rw [if_neg h]
  · intro h hlen
    unfold analyzeRecentInsert
    have hfil : recent.filter (fun u => u != uuid) = recent := by
      apply List.filter_eq_self.mpr
      intro u hu
      exact bne_iff_ne.mpr (fun he => h (he ▸ hu))
    rw [hfil]

/-- C4 witness: inserting an 11th distinct id into a full list evicts the
oldest entry, and a results-path insertion of a present id is the
identity. -/
theorem recent_list_discipline_witness :
    analyzeRecentInsert "k" ["u0", "u1", "u2", "u3", "u4", "u5", "u6", "u7", "u8", "u9"] =
      ["k", "u0", "u1", "u2", "u3", "u4", "u5", "u6", "u7", "u8"] ∧
    resultsRecentInsert "b" ["a", "b"] = ["a", "b"] := by
  constructor
  · have h := (recent_list_discipline "k"
      ["u0", "u1", "u2", "u3", "u4", "u5", "u6", "u7", "u8", "u9"]
      (by decide)).2.2.2.2.2 (by decide) (by decide)
    exact h.trans (by decide)
  · exact (recent_list_discipline "b" ["a", "b"] (by decide)).2.2.2.1 (by decide)

/-! ## The success/exit-code invariant (C3) -/

/-- C3 counterexample: the interactive `getResultsCore` returns
`success = false` together with `exitCode = 0` on the "no results yet"
outcome, so `success = true` is not equivalent to `exitCode = 0` there. -/
theorem interactive_noresults_success_false_exit_zero :
    (getResultsCoreInteractive true
      (Except.ok ({ status := some "processing" } : JobResponse Unit))).success = false ∧
    (getResultsCoreInteractive true
      (Except.ok ({ status := some "processing" } : JobResponse Unit))).exitCode = 0 ∧
    (getResultsCoreInteractive true
      (Except.ok ({ status := some "processing" } : JobResponse Unit))).message =
      "No results available yet. The job may still be processing." := by
  refine ⟨by decide, by decide, by decide⟩

/-- C3 (amended): every core operation pairs `success = true` exactly with
`exitCode = 0`, with one exception: the interactive `getResultsCore`
returns `success = false` with `exitCode = 0` on its "no results yet"
outcome (its `success` is instead equivalent to exit code 0 together with
not being that outcome); the commands/results `getResultsCore` does return
the "no results yet" outcome as success with exit code 0. -/
theorem success_iff_exit_zero_amended :
    (∀ (config : CLIConfig) (env : Except ErrObj Bool),
        (authenticateWithApi config env).success = true ↔
        (authenticateWithApi config env).exitCode = 0) ∧
    (∀ (filePath : String) (options : AnalyzeOpts) (config : CLIConfig) (env : AnalyzeEnv),
        (analyzeDocumentCore filePath options config env).result.success = true ↔
        (analyzeDocumentCore filePath options config env).result.exitCode = 0) ∧
    (∀ (ρ : Type) (uuid : String) (options : ResultsOptions) (config : CLIConfig)
        (env : ResultsEnv ρ),
        (getResultsCore uuid options config env).result.success = true ↔
        (getResultsCore uuid options config env).result.exitCode = 0) ∧
    (∀ (ω : Type) (client forceRefresh debugMode : Bool) (cached : Option (WfResp ω))
        (cachedAt ttl now : Int) (env : Except ErrObj (Option (WfResp ω))),
        (getWorkflowsCore client forceRefresh cached cachedAt ttl debugMode now env).success
          = true ↔
        (getWorkflowsCore client forceRefresh cached cachedAt ttl debugMode now env).exitCode
          = 0) ∧
    (∀ (client : Bool) (env : Except ErrObj Bool),
        (verifyAuthenticationCore client env).success = true ↔
        (verifyAuthenticationCore client env).exitCode = 0) ∧
    (∀ (client : Bool) (config : CLIConfig) (env : Except ErrObj AnalyzeResp),
        (analyzeDocumentCoreInteractive client config env).result.success = true ↔
        (analyzeDocumentCoreInteractive client config env).result.exitCode = 0) ∧
    (∀ (ρ : Type) (client : Bool) (env : Except ErrObj (JobResponse ρ)),
        (getResultsCoreInteractive client env).success = true ↔
        ((getResultsCoreInteractive client env).exitCode = 0 ∧
          (getResultsCoreInteractive client env).message ≠
            "No results available yet. The job may still be processing.")) ∧
    (∀ (ρ : Type) (st : Option String),
        (getResultsCoreInteractive true
          (Except.ok ({ status := st } : JobResponse ρ))).success = false ∧
        (getResultsCoreInteractive true
          (Except.ok ({ status := st } : JobResponse ρ))).exitCode = 0) := by
  refine ⟨?_, ?_, ?_, ?_, ?_, ?_, ?_, ?_⟩
  · intro config env
    by_cases hsa : config.service_account_path = ""
    · simp [authenticateWithApi, hsa]
    · rcases env with e | d
      · simp [authenticateWithApi, hsa]
      · cases d <;> simp [authenticateWithApi, hsa]
  · intro filePath options config env
    obtain ⟨fe, va, ar⟩ := env
    by_cases hsa : config.service_account_path = ""
    · simp [analyzeDocumentCore, hsa]
    · cases fe
      · simp [analyzeDocumentCore, hsa]
      · rcases va with e | d
        · simp [analyzeDocumentCore, hsa]
        · cases d
          · simp [analyzeDocumentCore, hsa]
          · cases hwf : optStrTruthy options.workflow
            · simp [analyzeDocumentCore, hsa, hwf]
            · rcases ar with e2 | r
              · simp [analyzeDocumentCore, hsa, hwf]
              · cases hu : optStrTruthy r.uuid <;>
                  simp [analyzeDocumentCore, hsa, hwf, hu]
  · intro ρ uuid options config env
    obtain ⟨va, gr⟩ := env
    by_cases hsa : config.service_account_path = ""
    · simp [getResultsCore, hsa]
    · rcases va with e | d
      · simp [getResultsCore, hsa]
      · cases d
        · simp [getResultsCore, hsa]
        · by_cases huuid : uuid = ""
          · simp [getResultsCore, hsa, huuid]
          · rcases gr with e2 | r
            · simp [getResultsCore, hsa, huuid]
            · rcases hres : r.results with _ | res
              · rcases herr : r.error with _ | e3 <;>
                  simp [getResultsCore, hsa, huuid, hres, herr]
              · simp [getResultsCore, hsa, huuid, hres]
  · intro ω client forceRefresh debugMode cached cachedAt ttl now env
    cases client
    · simp [getWorkflowsCore]
    · cases hb : (forceRefresh || cached.isNone || decide (now - cachedAt > ttl * 1000))
      · simp [getWorkflowsCore, hb]
      · rcases env with e | w
        · simp [getWorkflowsCore, hb]
        · cases hws : (w.map WfResp.success).getD false <;>
            simp [getWorkflowsCore, hb, hws]
  · intro client env
    cases client
    · simp [verifyAuthenticationCore]
    · rcases env with e | d
      · simp [verifyAuthenticationCore]
      · cases d <;> simp [verifyAuthenticationCore]
  · intro client config env
    cases client
    · simp [analyzeDocumentCoreInteractive]
    · rcases env with e | r
      · simp [analyzeDocumentCoreInteractive]
      · rcases hu : r.uuid with _ | u
        · simp [analyzeDocumentCoreInteractive, hu]
        · by_cases hue : u = "" <;> simp [analyzeDocumentCoreInteractive, hu, hue]
  · intro ρ client env
    cases client
    · simp [getResultsCoreInteractive]
    · rcases env with e | r
      · simp [getResultsCoreInteractive]
      · rcases hres : r.results with _ | res
        · rcases herr : r.error with _ | e3 <;>
            simp [getResultsCoreInteractive, hres, herr]
        · simp [getResultsCoreInteractive, hres]
  · intro ρ st
    refine ⟨?_, ?_⟩ <;> simp [getResultsCoreInteractive]

end VisionFi
